import Mathlib

/-!
Shallow embedding of `src/mcp_server.py`.

The program is a FastAPI application exposing a single route, `GET /sse`,
whose handler `mcp_context` builds a fixed dictionary literal and returns
`EventSourceResponse((json.dumps(data) for _ in range(1)))`: a one-shot
server-sent-event stream whose single event carries the JSON serialization
of that literal.

We embed, in order:
  * `PyVal` — Python values as far as `json.dumps` distinguishes them,
    together with `dumps`, a model of CPython's `json.dumps` with its
    default arguments (separators `", "` and `": "`, `ensure_ascii=True`,
    insertion-ordered dicts); non-serializable objects (`PyVal.obj`) make
    `dumps` fail with `Option.none`, modelling the `TypeError`.
  * the handler's payload literal `data` (lines 11–20 of the source);
  * `ServerSentEvent` / `Response` / `EventSourceResponse` — the relevant
    behaviour of `sse_starlette.sse.EventSourceResponse`: default status
    code 200, media type `text/event-stream`, and each string yielded by
    the content iterable wrapped as a data-only event (no event name, no
    id, no retry);
  * the generator expression `(json.dumps(data) for _ in range(1))` as
    `gen`, the handler `mcp_context`, the application's route table `app`
    and request dispatch, and a state-passing `step` for frame properties;
  * a fueled JSON parser `parseJson` (spec side), used to state that the
    wire payload parses back to the literal structure.
-/

namespace McpServer

/-- Python values, as far as `json.dumps` distinguishes them.  `obj`
stands for any object the default `JSONEncoder` cannot serialize. -/
inductive PyVal where
  | null
  | bool (b : Bool)
  | int (n : Int)
  | str (s : String)
  | list (xs : List PyVal)
  | dict (kvs : List (String × PyVal))
  | obj

/-- Lower-case hexadecimal digit, as produced by CPython's `"%04x"`. -/
def hexDigit (n : Nat) : Char :=
  if n < 10 then Char.ofNat (48 + n) else Char.ofNat (87 + n)

/-- Four lower-case hexadecimal digits (`"%04x" % n`). -/
def hex4 (n : Nat) : String :=
  String.mk [hexDigit (n / 4096 % 16), hexDigit (n / 256 % 16),
             hexDigit (n / 16 % 16), hexDigit (n % 16)]

/-- One character of `json.encoder.py_encode_basestring_ascii`: `"` and
`\` get a backslash escape, the usual control shortcuts apply, every
other character outside printable ASCII (`0x20`–`0x7e`) is emitted as
`\uXXXX` (a surrogate pair beyond the BMP), and printable ASCII is
emitted verbatim. -/
def escapeChar (c : Char) : String :=
  if c = '"' then "\\\""
  else if c = '\\' then "\\\\"
  else if c.toNat = 8 then "\\b"
  else if c.toNat = 9 then "\\t"
  else if c.toNat = 10 then "\\n"
  else if c.toNat = 12 then "\\f"
  else if c.toNat = 13 then "\\r"
  else if 0x20 ≤ c.toNat ∧ c.toNat ≤ 0x7e then String.mk [c]
  else if c.toNat < 0x10000 then "\\u" ++ hex4 c.toNat
  else
    "\\u" ++ hex4 (0xd800 + (c.toNat - 0x10000) / 1024) ++
    "\\u" ++ hex4 (0xdc00 + (c.toNat - 0x10000) % 1024)

/-- `json.encoder.py_encode_basestring_ascii`: the JSON string literal
for `s` under `ensure_ascii=True`. -/
def encodeBasestringAscii (s : String) : String :=
  "\"" ++ String.join (s.data.map escapeChar) ++ "\""

mutual

/-- CPython `json.dumps` with default arguments: item separator `", "`,
key separator `": "`, `ensure_ascii=True`, dict entries in insertion
order.  Fails (`Option.none`, modelling `TypeError`) on a
non-serializable object. -/
def dumps : PyVal → Option String
  | .null => some "null"
  | .bool true => some "true"
  | .bool false => some "false"
  | .int n => some (toString n)
  | .str s => some (encodeBasestringAscii s)
  | .list xs =>
    match dumpsList xs with
    | some ss => some ("[" ++ String.intercalate ", " ss ++ "]")
    | Option.none => Option.none
  | .dict kvs =>
    match dumpsDict kvs with
    | some ss => some ("\x7b" ++ String.intercalate ", " ss ++ "\x7d")
    | Option.none => Option.none
  | .obj => Option.none

/-- Serialize the elements of a JSON array, left to right; fail if any
element fails. -/
def dumpsList : List PyVal → Option (List String)
  | [] => some []
  | v :: vs =>
    match dumps v, dumpsList vs with
    | some s, some ss => some (s :: ss)
    | _, _ => Option.none

/-- Serialize the members of a JSON object as `<key>: <value>` strings,
in insertion order; fail if any value fails. -/
def dumpsDict : List (String × PyVal) → Option (List String)
  | [] => some []
  | (k, v) :: kvs =>
    match dumps v, dumpsDict kvs with
    | some s, some ss => some ((encodeBasestringAscii k ++ ": " ++ s) :: ss)
    | _, _ => Option.none

end

/-- The dictionary literal built by `mcp_context` (source lines 11–20):
`{"toolgroups": [{"name": "rag-dogs", "args": {"vector_db_ids":
["toy_faiss_db"]}}]}`. -/
def data : PyVal :=
  .dict [("toolgroups",
    .list [.dict [("name", .str "rag-dogs"),
                  ("args", .dict [("vector_db_ids",
                                   .list [.str "toy_faiss_db"])])]])]

/-- The exact wire payload the spec gives for the single event's data
field. -/
def wire : String :=
  "\x7b\"toolgroups\": [\x7b\"name\": \"rag-dogs\", \"args\": \x7b\"vector_db_ids\": [\"toy_faiss_db\"]\x7d\x7d]\x7d"

/-- One server-sent event as `sse_starlette` frames it: a data field,
an optional event name, an optional id, an optional retry interval.
When the content iterable yields a plain string `s`, `sse_starlette`
wraps it as `ServerSentEvent(data=s)`, all other fields absent. -/
structure ServerSentEvent where
  data : String
  event : Option String
  id : Option String
  retry : Option Nat
deriving DecidableEq, Repr

/-- The observable part of an HTTP response from the application: status
code, media type, and the finite sequence of SSE events delivered before
end-of-stream. -/
structure Response where
  status_code : Nat
  media_type : String
  events : List ServerSentEvent
deriving DecidableEq, Repr

/-- `sse_starlette.sse.EventSourceResponse` applied to a content
iterable of strings, with its defaults: status code 200, media type
`text/event-stream`, each yielded string becoming a data-only event.
The stream ends (the connection closes) when the iterable is exhausted,
which the finite `List` models. -/
def EventSourceResponse (content : List String) : Response :=
  ⟨200, "text/event-stream",
   content.map (fun s => ⟨s, Option.none, Option.none, Option.none⟩)⟩

/-- The generator expression `(json.dumps(data) for _ in range(1))` of
source line 21, run to exhaustion: one `json.dumps(data)` per element of
`range(1)`; a `TypeError` from `json.dumps` would propagate, which the
`Option` layer models. -/
def gen : Option (List String) :=
  (List.range 1).mapM (fun _ => dumps data)

/-- The route handler `mcp_context` (source lines 9–21): build `data`,
return `EventSourceResponse((json.dumps(data) for _ in range(1)))`.
`Option.none` would mean the handler raised. -/
def mcp_context : Option Response :=
  gen.map EventSourceResponse

/-- An incoming HTTP request: method, path, headers, body.  The handler
takes no parameters, so FastAPI passes it nothing from the request. -/
structure Request where
  method : String
  path : String
  headers : List (String × String)
  body : String
deriving DecidableEq, Repr

/-- One entry of the application's route table. -/
structure RouteEntry where
  method : String
  path : String
  handler : Request → Option Response

/-- The route table of `app = FastAPI()` after the module body runs: the
decorator `@app.get("/sse")` registers exactly one route, `GET /sse`,
handled by `mcp_context` (which ignores the request, as the Python
handler takes no parameters). -/
def app : List RouteEntry :=
  [⟨"GET", "/sse", fun _ => mcp_context⟩]

/-- Request dispatch: the first route whose method and path match
handles the request; with no match the framework answers 404 without
running application code (`Option.none` here). -/
def dispatch (req : Request) : Option Response :=
  match app.find? (fun e => e.method == req.method && e.path == req.path) with
  | some e => e.handler req
  | Option.none => Option.none

/-- Server-side state a request handler could read or write: module
globals and the file system.  `mcp_server.py` has no mutable globals and
performs no file I/O, so `step` below leaves this untouched. -/
structure ServerState where
  globals : List (String × PyVal)
  files : List (String × String)

/-- One request-handling step of the running server: dispatch the
request and produce the next server state.  The source handler only
builds a local literal and serializes it, so the state passes through
unchanged. -/
def step (σ : ServerState) (req : Request) : ServerState × Option Response :=
  (σ, dispatch req)

/-- Run a sequence of requests through the server, threading the state,
collecting the responses in order. -/
def runRequests (σ : ServerState) : List Request → List (Option Response)
  | [] => []
  | r :: rs => (step σ r).2 :: runRequests (step σ r).1 rs

/-!
A JSON parser (spec side, RFC 8259), used only to state that the wire
payload, parsed as JSON, is exactly the literal structure the handler
serialized.  Floating-point numbers are rejected rather than modelled
(none occur in any payload of this program), `\uXXXX` escapes decode to
the corresponding code unit without surrogate-pair combination, and the
parser is fueled by the recursion depth (any fuel at least the input
length suffices, since each nesting level consumes input).
-/

/-- JSON insignificant whitespace: space, tab, line feed, carriage
return. -/
def isJsonWs (c : Char) : Bool :=
  c = ' ' || c.toNat = 9 || c.toNat = 10 || c.toNat = 13

/-- Drop leading JSON whitespace. -/
def skipWs : List Char → List Char
  | [] => []
  | c :: cs => if isJsonWs c then skipWs cs else c :: cs

/-- Value of one hexadecimal digit, either case. -/
def hexVal (c : Char) : Option Nat :=
  if '0' ≤ c ∧ c ≤ '9' then some (c.toNat - 48)
  else if 'a' ≤ c ∧ c ≤ 'f' then some (c.toNat - 87)
  else if 'A' ≤ c ∧ c ≤ 'F' then some (c.toNat - 55)
  else Option.none

/-- Decode a one-character JSON escape (`\"`, `\\`, `\/`, `\b`, `\f`,
`\n`, `\r`, `\t`). -/
def escDecode (e : Char) : Option Char :=
  if e = '"' then some '"'
  else if e = '\\' then some '\\'
  else if e = '/' then some '/'
  else if e = 'b' then some (Char.ofNat 8)
  else if e = 'f' then some (Char.ofNat 12)
  else if e = 'n' then some (Char.ofNat 10)
  else if e = 'r' then some (Char.ofNat 13)
  else if e = 't' then some (Char.ofNat 9)
  else Option.none

/-- Parse the body of a JSON string (the opening quote already
consumed), returning the decoded characters and the rest of the input.
Unescaped control characters are rejected, as RFC 8259 requires. -/
def parseJString : List Char → Option (List Char × List Char)
  | '"' :: cs => some ([], cs)
  | '\\' :: 'u' :: a :: b :: c :: d :: cs =>
    match hexVal a, hexVal b, hexVal c, hexVal d with
    | some ha, some hb, some hc, some hd =>
      (parseJString cs).map
        (fun p => (Char.ofNat (ha * 4096 + hb * 256 + hc * 16 + hd) :: p.1, p.2))
    | _, _, _, _ => Option.none
  | '\\' :: e :: cs =>
    match escDecode e with
    | some c => (parseJString cs).map (fun p => (c :: p.1, p.2))
    | Option.none => Option.none
  | c :: cs =>
    if c.toNat < 0x20 then Option.none
    else (parseJString cs).map (fun p => (c :: p.1, p.2))
  | [] => Option.none

/-- Split off a maximal run of decimal digits. -/
def takeDigits : List Char → List Char × List Char
  | c :: cs =>
    if c.isDigit then
      let p := takeDigits cs
      (c :: p.1, p.2)
    else ([], c :: cs)
  | [] => ([], [])

/-- Numeric value of a digit run. -/
def digitsToNat (ds : List Char) : Nat :=
  ds.foldl (fun a c => a * 10 + (c.toNat - 48)) 0

/-- Parse a JSON integer from a digit run: at least one digit, no
leading zero (except `0` itself), and no fraction or exponent following
(floats are rejected, not modelled). -/
def parseIntFrom (cs : List Char) : Option (Nat × List Char) :=
  match takeDigits cs with
  | ([], _) => Option.none
  | (d :: ds, rest) =>
    if d = '0' ∧ ds ≠ [] then Option.none
    else
      match rest with
      | '.' :: _ => Option.none
      | 'e' :: _ => Option.none
      | 'E' :: _ => Option.none
      | _ => some (digitsToNat (d :: ds), rest)

mutual

/-- Parse one JSON value after skipping leading whitespace; the fuel
bounds the nesting depth. -/
def parseValue : Nat → List Char → Option (PyVal × List Char)
  | 0, _ => Option.none
  | fuel + 1, cs =>
    match skipWs cs with
    | '"' :: cs' => (parseJString cs').map (fun p => (.str (String.mk p.1), p.2))
    | '\x7b' :: cs' =>
      match skipWs cs' with
      | '\x7d' :: rest => some (.dict [], rest)
      | cs'' => (parseMembers fuel cs'').map (fun p => (.dict p.1, p.2))
    | '[' :: cs' =>
      match skipWs cs' with
      | ']' :: rest => some (.list [], rest)
      | cs'' => (parseElements fuel cs'').map (fun p => (.list p.1, p.2))
    | 'n' :: 'u' :: 'l' :: 'l' :: rest => some (.null, rest)
    | 't' :: 'r' :: 'u' :: 'e' :: rest => some (.bool true, rest)
    | 'f' :: 'a' :: 'l' :: 's' :: 'e' :: rest => some (.bool false, rest)
    | '-' :: cs' => (parseIntFrom cs').map (fun p => (.int (-(p.1 : Int)), p.2))
    | cs'' => (parseIntFrom cs'').map (fun p => (.int (p.1 : Int), p.2))

/-- Parse a non-empty `"key": value` member list of a JSON object, up
to and including the closing brace. -/
def parseMembers : Nat → List Char → Option (List (String × PyVal) × List Char)
  | 0, _ => Option.none
  | fuel + 1, cs =>
    match skipWs cs with
    | '"' :: cs' =>
      match parseJString cs' with
      | some (k, rest) =>
        match skipWs rest with
        | ':' :: rest' =>
          match parseValue fuel rest' with
          | some (v, rest'') =>
            match skipWs rest'' with
            | ',' :: more =>
              (parseMembers fuel more).map
                (fun p => ((String.mk k, v) :: p.1, p.2))
            | '\x7d' :: more => some ([(String.mk k, v)], more)
            | _ => Option.none
          | Option.none => Option.none
        | _ => Option.none
      | Option.none => Option.none
    | _ => Option.none

/-- Parse a non-empty element list of a JSON array, up to and including
the closing bracket. -/
def parseElements : Nat → List Char → Option (List PyVal × List Char)
  | 0, _ => Option.none
  | fuel + 1, cs =>
    match parseValue fuel cs with
    | some (v, rest) =>
      match skipWs rest with
      | ',' :: more => (parseElements fuel more).map (fun p => (v :: p.1, p.2))
      | ']' :: more => some ([v], more)
      | _ => Option.none
    | Option.none => Option.none

end

/-- Parse a complete JSON text: one value, then only whitespace.  The
fuel `s.length + 1` always suffices, since each nesting level consumes
at least one character of the input. -/
def parseJson (s : String) : Option PyVal :=
  match parseValue (s.length + 1) s.data with
  | some (v, rest) => if skipWs rest = [] then some v else Option.none
  | Option.none => Option.none

/-!  Theorems. -/

/-- Any request whose method is `GET` and whose path is `/sse` is
dispatched to the handler `mcp_context` (shared helper lemma). -/
theorem dispatch_sse (req : Request) (hm : req.method = "GET")
    (hp : req.path = "/sse") : dispatch req = mcp_context := by
  simp [dispatch, app, hm, hp]

/-- When every request in the list targets `GET /sse`, running the list
from any server state answers every request with `mcp_context`'s
response (shared helper lemma). -/
theorem runRequests_const (l : List Request) :
    ∀ σ : ServerState, (∀ r ∈ l, r.method = "GET" ∧ r.path = "/sse") →
      runRequests σ l = l.map (fun _ => mcp_context) := by
  induction l with
  | nil => intro σ _; rfl
  | cons r rs ih =>
    intro σ h
    have hr : r.method = "GET" ∧ r.path = "/sse" := h r (List.mem_cons_self r rs)
    have hrs : ∀ x ∈ rs, x.method = "GET" ∧ x.path = "/sse" :=
      fun x hx => h x (List.mem_cons_of_mem r hx)
    simp [runRequests, step, dispatch_sse r hr.1 hr.2, ih _ hrs]

/-- Claim C1: every invocation of `GET /sse` delivers exactly one SSE
event, and the stream is closed right after it: the response's event
list (the whole finite stream, in this model) has length one. -/
theorem mcp_single_event_per_request (req : Request)
    (hm : req.method = "GET") (hp : req.path = "/sse") :
    (dispatch req).map (fun r => r.events.length) = some 1 := by
  rw [dispatch_sse req hm hp]
  rfl

/-- Witness for C1 at the concrete request `GET /sse`. -/
theorem mcp_single_event_per_request_witness :
    (Request.mk "GET" "/sse" [] "").method = "GET" ∧
    (Request.mk "GET" "/sse" [] "").path = "/sse" ∧
    (dispatch (Request.mk "GET" "/sse" [] "")).map
      (fun r => r.events.length) = some 1 :=
  ⟨rfl, rfl, mcp_single_event_per_request (Request.mk "GET" "/sse" [] "") rfl rfl⟩

/-- Claim C2: the data field of the single event is byte-for-byte the
wire payload the spec gives, and that payload, parsed as JSON, is
exactly the literal structure the handler serialized — one toolgroup
named `rag-dogs` whose args map `vector_db_ids` to `["toy_faiss_db"]`. -/
theorem mcp_wire_payload_exact (req : Request)
    (hm : req.method = "GET") (hp : req.path = "/sse") :
    (dispatch req).map (fun r => r.events.map ServerSentEvent.data) = some [wire] ∧
    parseJson wire = some data := by
  rw [dispatch_sse req hm hp]
  exact ⟨rfl, rfl⟩

/-- Witness for C2 at the concrete request `GET /sse`. -/
theorem mcp_wire_payload_exact_witness :
    (Request.mk "GET" "/sse" [] "").method = "GET" ∧
    (Request.mk "GET" "/sse" [] "").path = "/sse" ∧
    ((dispatch (Request.mk "GET" "/sse" [] "")).map
        (fun r => r.events.map ServerSentEvent.data) = some [wire] ∧
     parseJson wire = some data) :=
  ⟨rfl, rfl, mcp_wire_payload_exact (Request.mk "GET" "/sse" [] "") rfl rfl⟩

/-- Claim C3: for any number of sequential `GET /sse` requests, from any
server state, every response equals `mcp_context`'s response with
status 200, so every pair of responses is identical. -/
theorem mcp_sequential_responses_identical (σ : ServerState)
    (l : List Request)
    (h : ∀ r ∈ l, r.method = "GET" ∧ r.path = "/sse") :
    (∀ resp ∈ runRequests σ l,
        resp = mcp_context ∧ resp.map Response.status_code = some 200) ∧
    (∀ a ∈ runRequests σ l, ∀ b ∈ runRequests σ l, a = b) := by
  have hconst := runRequests_const l σ h
  constructor
  · intro resp hresp
    rw [hconst] at hresp
    rcases List.mem_map.mp hresp with ⟨r, _, rfl⟩
    exact ⟨rfl, rfl⟩
  · intro a ha b hb
    rw [hconst] at ha hb
    rcases List.mem_map.mp ha with ⟨r1, _, rfl⟩
    rcases List.mem_map.mp hb with ⟨r2, _, h2⟩
    exact h2

/-- Witness for C3: two sequential `GET /sse` requests with different
headers and bodies, from the empty server state. -/
theorem mcp_sequential_responses_identical_witness :
    (∀ r ∈ [Request.mk "GET" "/sse" [("accept", "text/event-stream")] "",
            Request.mk "GET" "/sse" [] "body"],
        r.method = "GET" ∧ r.path = "/sse") ∧
    ((∀ resp ∈ runRequests (ServerState.mk [] [])
          [Request.mk "GET" "/sse" [("accept", "text/event-stream")] "",
           Request.mk "GET" "/sse" [] "body"],
        resp = mcp_context ∧ resp.map Response.status_code = some 200) ∧
     (∀ a ∈ runRequests (ServerState.mk [] [])
          [Request.mk "GET" "/sse" [("accept", "text/event-stream")] "",
           Request.mk "GET" "/sse" [] "body"],
        ∀ b ∈ runRequests (ServerState.mk [] [])
          [Request.mk "GET" "/sse" [("accept", "text/event-stream")] "",
           Request.mk "GET" "/sse" [] "body"], a = b)) :=
  ⟨by decide,
   mcp_sequential_responses_identical (ServerState.mk [] [])
     [Request.mk "GET" "/sse" [("accept", "text/event-stream")] "",
      Request.mk "GET" "/sse" [] "body"] (by decide)⟩

/-- Claim C4: every response to `GET /sse` has HTTP status 200 and
media type `text/event-stream`. -/
theorem mcp_status_and_media_type (req : Request)
    (hm : req.method = "GET") (hp : req.path = "/sse") :
    (dispatch req).map Response.status_code = some 200 ∧
    (dispatch req).map Response.media_type = some "text/event-stream" := by
  rw [dispatch_sse req hm hp]
  exact ⟨rfl, rfl⟩

/-- Witness for C4 at the concrete request `GET /sse`. -/
theorem mcp_status_and_media_type_witness :
    (Request.mk "GET" "/sse" [] "").method = "GET" ∧
    (Request.mk "GET" "/sse" [] "").path = "/sse" ∧
    ((dispatch (Request.mk "GET" "/sse" [] "")).map Response.status_code = some 200 ∧
     (dispatch (Request.mk "GET" "/sse" [] "")).map Response.media_type =
       some "text/event-stream") :=
  ⟨rfl, rfl, mcp_status_and_media_type (Request.mk "GET" "/sse" [] "") rfl rfl⟩

/-- Claim C5: the handler has no error branch: every `GET /sse`
invocation produces a response (no raised exception), because the
serialization of the static literal succeeds — `json.dumps` yields the
wire payload and the generator never fails. -/
theorem mcp_handler_never_fails (req : Request)
    (hm : req.method = "GET") (hp : req.path = "/sse") :
    (dispatch req).isSome = true ∧ dumps data = some wire ∧ gen = some [wire] := by
  rw [dispatch_sse req hm hp]
  exact ⟨rfl, rfl, rfl⟩

/-- Witness for C5 at the concrete request `GET /sse`. -/
theorem mcp_handler_never_fails_witness :
    (Request.mk "GET" "/sse" [] "").method = "GET" ∧
    (Request.mk "GET" "/sse" [] "").path = "/sse" ∧
    ((dispatch (Request.mk "GET" "/sse" [] "")).isSome = true ∧
     dumps data = some wire ∧ gen = some [wire]) :=
  ⟨rfl, rfl, mcp_handler_never_fails (Request.mk "GET" "/sse" [] "") rfl rfl⟩

/-- Claim C6: the single event emitted by `GET /sse` is data-only: it
carries no event name, no id, and no retry field. -/
theorem mcp_event_data_only (req : Request)
    (hm : req.method = "GET") (hp : req.path = "/sse") :
    (dispatch req).map
        (fun r => r.events.map (fun e => (e.event, e.id, e.retry))) =
      some [(Option.none, Option.none, Option.none)] := by
  rw [dispatch_sse req hm hp]
  rfl

/-- Witness for C6 at the concrete request `GET /sse`. -/
theorem mcp_event_data_only_witness :
    (Request.mk "GET" "/sse" [] "").method = "GET" ∧
    (Request.mk "GET" "/sse" [] "").path = "/sse" ∧
    (dispatch (Request.mk "GET" "/sse" [] "")).map
        (fun r => r.events.map (fun e => (e.event, e.id, e.retry))) =
      some [(Option.none, Option.none, Option.none)] :=
  ⟨rfl, rfl, mcp_event_data_only (Request.mk "GET" "/sse" [] "") rfl rfl⟩

/-- Claim C7: a request-handling step reads and writes no state outside
the request: the server state passes through unchanged, the response is
a function of the request alone, and it is the same from any two server
states. -/
theorem mcp_handler_frame (σ : ServerState) (req : Request) :
    (step σ req).1 = σ ∧ (step σ req).2 = dispatch req ∧
    ∀ σ' : ServerState, (step σ req).2 = (step σ' req).2 :=
  ⟨rfl, rfl, fun _ => rfl⟩

/-- Claim C8: the response does not depend on any part of the incoming
request beyond the route: two `GET /sse` requests with arbitrary
headers and bodies receive equal responses, namely the single data-only
event carrying the wire payload. -/
theorem mcp_response_request_independent (r₁ r₂ : Request)
    (hm₁ : r₁.method = "GET") (hp₁ : r₁.path = "/sse")
    (hm₂ : r₂.method = "GET") (hp₂ : r₂.path = "/sse") :
    dispatch r₁ = dispatch r₂ ∧
    (dispatch r₁).map Response.events =
      some [ServerSentEvent.mk wire Option.none Option.none Option.none] := by
  rw [dispatch_sse r₁ hm₁ hp₁, dispatch_sse r₂ hm₂ hp₂]
  exact ⟨rfl, rfl⟩

/-- Witness for C8: two concrete `GET /sse` requests differing in both
headers and body. -/
theorem mcp_response_request_independent_witness :
    (Request.mk "GET" "/sse" [("x-forwarded-for", "10.0.0.1")] "").method = "GET" ∧
    (Request.mk "GET" "/sse" [("x-forwarded-for", "10.0.0.1")] "").path = "/sse" ∧
    (Request.mk "GET" "/sse" [] "ignored body").method = "GET" ∧
    (Request.mk "GET" "/sse" [] "ignored body").path = "/sse" ∧
    (dispatch (Request.mk "GET" "/sse" [("x-forwarded-for", "10.0.0.1")] "") =
       dispatch (Request.mk "GET" "/sse" [] "ignored body") ∧
     (dispatch (Request.mk "GET" "/sse" [("x-forwarded-for", "10.0.0.1")] "")).map
         Response.events =
       some [ServerSentEvent.mk wire Option.none Option.none Option.none]) :=
  ⟨rfl, rfl, rfl, rfl,
   mcp_response_request_independent
     (Request.mk "GET" "/sse" [("x-forwarded-for", "10.0.0.1")] "")
     (Request.mk "GET" "/sse" [] "ignored body") rfl rfl rfl rfl⟩

/-- Claim C9: the application registers exactly one route, `GET /sse`;
every other method or path falls through to the framework's 404 with no
application code run, and no step creates files or mutates state. -/
theorem mcp_single_route :
    app.map (fun e => (e.method, e.path)) = [("GET", "/sse")] ∧
    (∀ req : Request, dispatch req =
      if ("GET" == req.method && "/sse" == req.path) then mcp_context
      else Option.none) ∧
    (∀ (σ : ServerState) (req : Request), (step σ req).1 = σ) := by
  refine ⟨rfl, ?_, fun _ _ => rfl⟩
  intro req
  cases hc : ("GET" == req.method && "/sse" == req.path) <;>
    simp [dispatch, app, List.find?, hc]

/-- Claim C10: the event source handed to the response is the generator
`(json.dumps(data) for _ in range(1))`: it yields exactly once — the
wire payload — and then terminates, so the per-request stream is a
total, finite computation. -/
theorem mcp_generator_single_yield :
    gen = some [wire] ∧ gen.map List.length = some 1 ∧
    mcp_context = some (EventSourceResponse [wire]) :=
  ⟨rfl, rfl, rfl⟩

end McpServer
